import Mathlib

/-!
Shallow embedding of `src/model.py` of the infection-visualization
repository: the `BoidFlockers` model class (construction, agent seeding,
stepping, and status-tally accounting).

Numbers are modelled as rationals (`ℚ`): every arithmetic operation the
embedded code performs on them (multiplication, `*2 - 1`) is exact.
Python `int` values that can go negative (`population`, agent ids produced
by `range(population - 5, population)`) are modelled as `Int`.

Randomness: the Python code draws from two distinct generators —
`self.random.random()` (the mesa model's seedable generator, used for
initial positions) and the global `np.random.random` (used for initial
velocities).  Each generator is embedded as an input stream `ℕ → ℚ`
giving the successive draws: `sr` for the seedable `self.random` stream
and `gr` for the global numpy stream.
-/

namespace InfectionVis

/-- Infection status of a boid.  The Python code stores it as one of the
four strings "susceptible", "infected", "recovered", "removed"; the
statuses actually reachable (constructor arguments in `make_agents` and
the transitions of the boid state machine) are exactly these four, so the
embedding uses a four-constructor enumeration. -/
inductive Status where
  | susceptible
  | infected
  | recovered
  | removed
deriving DecidableEq, Repr

/-- One boid agent, as constructed by `Boid(i, model, pos, speed, velocity,
vision, separation, status, age, motality, infection_rate, cohere,
separate, match)` in `make_agents`.  The `match` steering factor is named
`match_factor` because `match` is reserved in Lean. -/
structure Boid where
  unique_id : Int
  pos : ℚ × ℚ
  speed : ℚ
  velocity : ℚ × ℚ
  vision : ℚ
  separation : ℚ
  status : Status
  age : ℕ
  motality : ℚ
  infection_rate : ℚ
  cohere : ℚ
  separate : ℚ
  match_factor : ℚ
deriving DecidableEq, Repr

/-- The per-tick status tally history `self.status_num`: a dictionary of
four lists of counts, one list per status. -/
structure StatusNum where
  susceptible : List ℕ
  infected : List ℕ
  recovered : List ℕ
  removed : List ℕ
deriving DecidableEq, Repr

/-- The mutable state of a `BoidFlockers` model instance: the construction
parameters stored on `self`, the status history, and the scheduler's agent
list (`RandomActivation` holds the agents keyed by unique id in insertion
order; ids are pairwise distinct, so a list in insertion order is a
faithful model). -/
structure BoidFlockers where
  width : ℚ
  height : ℚ
  status_num : StatusNum
  population : Int
  vision : ℚ
  speed : ℚ
  separation : ℚ
  motality : ℚ
  infection_rate : ℚ
  cohere : ℚ
  separate : ℚ
  match_factor : ℚ
  schedule : List Boid
deriving DecidableEq, Repr

/-- The constructor arguments of `BoidFlockers.__init__`. -/
structure Params where
  population : Int
  width : ℚ
  height : ℚ
  speed : ℚ
  vision : ℚ
  motality : ℚ
  infection_rate : ℚ
  separation : ℚ
  cohere : ℚ
  separate : ℚ
  match_factor : ℚ
deriving DecidableEq, Repr

/-- The documented default arguments of `BoidFlockers.__init__`:
`population=100, width=100, height=100, speed=1, vision=10, motality=0.1,
infection_rate=0.3, separation=2, cohere=0.025, separate=0.25,
match=0.04`. -/
def defaultParams : Params where
  population := 100
  width := 100
  height := 100
  speed := 1
  vision := 10
  motality := 0.1
  infection_rate := 0.3
  separation := 2
  cohere := 0.025
  separate := 0.25
  match_factor := 0.04

/-- Python `range(a, b)`: the integers `a, a+1, …, b-1`; empty when
`b ≤ a`. -/
def pythonRange (a b : Int) : List Int :=
  (List.range (b - a).toNat).map (fun k => a + Int.ofNat k)

/-- The ids of the first loop of `make_agents`: `range(self.population - 5)`,
agents created with status "susceptible". -/
def susceptibleIds (p : Params) : List Int :=
  pythonRange 0 (p.population - 5)

/-- The ids of the second loop of `make_agents`:
`range(self.population - 5, self.population)`, agents created with status
"infected". -/
def infectedIds (p : Params) : List Int :=
  pythonRange (p.population - 5) p.population

/-- The (id, initial status) pairs of the agents `make_agents` creates, in
creation order: the susceptible loop followed by the infected loop. -/
def agentSpecs (p : Params) : List (Int × Status) :=
  (susceptibleIds p).map (fun i => (i, Status.susceptible)) ++
    (infectedIds p).map (fun i => (i, Status.infected))

/-- One loop iteration of `make_agents`, for the agent with creation index
`k` (counting all agents created so far across both loops), id `i` and
initial status `st`:
`x = self.random.random() * self.space.x_max`,
`y = self.random.random() * self.space.y_max`
(the space is `ContinuousSpace(width, height, True)`, so `x_max = width`
and `y_max = height`), and
`velocity = np.random.random(2) * 2 - 1` componentwise.
The `k`-th created agent consumes the seedable draws `sr (2k)` and
`sr (2k+1)` and the global numpy draws `gr (2k)` and `gr (2k+1)`. -/
def makeBoid (p : Params) (sr gr : ℕ → ℚ) (k : ℕ) (i : Int) (st : Status) :
    Boid where
  unique_id := i
  pos := (sr (2 * k) * p.width, sr (2 * k + 1) * p.height)
  speed := p.speed
  velocity := (gr (2 * k) * 2 - 1, gr (2 * k + 1) * 2 - 1)
  vision := p.vision
  separation := p.separation
  status := st
  age := 0
  motality := p.motality
  infection_rate := p.infection_rate
  cohere := p.cohere
  separate := p.separate
  match_factor := p.match_factor

/-- Runs the creation loops of `make_agents` over the remaining
(id, status) pairs, threading the creation index `k` so that consecutive
agents consume consecutive draws of each generator. -/
def makeAgentsAux (p : Params) (sr gr : ℕ → ℚ) : ℕ → List (Int × Status) → List Boid
  | _, [] => []
  | k, (i, st) :: rest => makeBoid p sr gr k i st :: makeAgentsAux p sr gr (k + 1) rest

/-- The agent list produced by `BoidFlockers.make_agents` (each created
boid is passed to `space.place_agent` and `schedule.add`, so this is the
scheduler's agent list in insertion order). -/
def makeAgents (p : Params) (sr gr : ℕ → ℚ) : List Boid :=
  makeAgentsAux p sr gr 0 (agentSpecs p)

/-- Counts the agents of the list whose status equals `s`: one branch of
the four `if` counters of `get_status_num`. -/
def countStatus (agents : List Boid) (s : Status) : ℕ :=
  agents.countP (fun a => decide (a.status = s))

/-- `BoidFlockers.get_status_num`: counts the agents in each of the four
statuses over `self.schedule.agents` and appends each count to the
corresponding history list of `self.status_num`. -/
def get_status_num (m : BoidFlockers) : BoidFlockers :=
  { m with
    status_num :=
      { susceptible := m.status_num.susceptible ++ [countStatus m.schedule .susceptible]
        infected := m.status_num.infected ++ [countStatus m.schedule .infected]
        recovered := m.status_num.recovered ++ [countStatus m.schedule .recovered]
        removed := m.status_num.removed ++ [countStatus m.schedule .removed] } }

/-- `BoidFlockers.__init__`: stores the parameters, initializes the four
status-history lists to empty, builds the scheduler and space, and calls
`make_agents` — which creates and registers the agents and ends with
`self.get_status_num()`, recording the initial tally. -/
def initBoidFlockers (p : Params) (sr gr : ℕ → ℚ) : BoidFlockers :=
  get_status_num
    { width := p.width
      height := p.height
      status_num := ⟨[], [], [], []⟩
      population := p.population
      vision := p.vision
      speed := p.speed
      separation := p.separation
      motality := p.motality
      infection_rate := p.infection_rate
      cohere := p.cohere
      separate := p.separate
      match_factor := p.match_factor
      schedule := makeAgents p sr gr }

/-- `BoidFlockers.__init__` viewed through Python's fallible calling
convention (a constructor signals invalid arguments by raising).  The
source performs no parameter validation and contains no `raise`, and no
operation it calls can fail on any argument values, so every code path
returns the constructed model. -/
def tryInitBoidFlockers (p : Params) (sr gr : ℕ → ℚ) :
    Except String BoidFlockers :=
  Except.ok (initBoidFlockers p sr gr)

/-- The per-activation inputs of one boid's `step` (the code of `boid.py`
is not part of the model file; see `activateWith`): the movement outcome
and the Bernoulli draws of the status state machine. -/
structure ActivationOracle where
  newPos : ℚ × ℚ
  newVel : ℚ × ℚ
  infectionTrials : List Bool
  mortalityTrial : Bool
  recoveryTrial : Bool
deriving DecidableEq, Repr

/-- Modelled from the spec: `boid.py` (the `Boid.step` status state
machine) is not in `src/`.  Per-activation infection-status transition,
spec §4.2: a Susceptible agent draws one Bernoulli trial per Infected
neighbor within vision and becomes Infected if any trial succeeds; an
Infected agent becomes Removed on a mortality trial, else Recovered on a
recovery trial, else stays Infected; Recovered and Removed have no
outgoing transitions. -/
def statusUpdate (st : Status) (infTrials : List Bool)
    (mortTrial recovTrial : Bool) : Status :=
  match st with
  | .susceptible => if infTrials.any id then .infected else .susceptible
  | .infected =>
      if mortTrial then .removed
      else if recovTrial then .recovered
      else .infected
  | .recovered => .recovered
  | .removed => .removed

/-- Modelled from the spec: `boid.py` (the `Boid.step` activation) is not
in `src/`.  One activation of one boid, spec §4.2: the agent moves (the
steering computation needs real-valued normalization, so the resulting
position and velocity are supplied by the oracle) and then updates its
infection status by the state machine `statusUpdate`; its identity and
parameters are unchanged, and no other agent is touched. -/
def activateWith (o : ActivationOracle) (b : Boid) : Boid :=
  { b with
    pos := o.newPos
    velocity := o.newVel
    status := statusUpdate b.status o.infectionTrials o.mortalityTrial o.recoveryTrial }

/-- One pass of `RandomActivation.step()`: the agents are activated exactly
once each, sequentially, in a shuffled order.  `order` is the shuffled
list of positions into the agent list and `O` gives each activated
position its oracle inputs for this tick; each activation replaces that
agent (in place) by its activated successor. -/
def scheduleStep (order : List ℕ) (O : ℕ → ActivationOracle)
    (agents : List Boid) : List Boid :=
  order.foldl
    (fun ags idx =>
      match ags.get? idx with
      | some b => ags.set idx (activateWith (O idx) b)
      | none => ags)
    agents

/-- `BoidFlockers.step`: `self.schedule.step()` followed by
`self.get_status_num()`. -/
def modelStep (order : List ℕ) (O : ℕ → ActivationOracle)
    (m : BoidFlockers) : BoidFlockers :=
  get_status_num { m with schedule := scheduleStep order O m.schedule }

/-- The model after `n` calls to `step()` on a freshly constructed
`BoidFlockers`; `orders t` and `Os t` are the shuffle and the activation
inputs of tick `t`. -/
def runModel (p : Params) (sr gr : ℕ → ℚ) (orders : ℕ → List ℕ)
    (Os : ℕ → ℕ → ActivationOracle) : ℕ → BoidFlockers
  | 0 => initBoidFlockers p sr gr
  | n + 1 => modelStep (orders n) (Os n) (runModel p sr gr orders Os n)

/-- The pointwise sum of the four status-history series: entry `t` is the
total number of counted agents of tick `t`. -/
def sumTallies (sn : StatusNum) : List ℕ :=
  List.zipWith (· + ·) (List.zipWith (· + ·) sn.susceptible sn.infected)
    (List.zipWith (· + ·) sn.recovered sn.removed)

/-- The all-zero draw stream, used for concrete evaluations. -/
def zeroStream : ℕ → ℚ := fun _ => 0

/-- A constant one-half draw stream, used for concrete evaluations. -/
def halfStream : ℕ → ℚ := fun _ => 1 / 2

/-- Concrete parameters with `population = 3` (and the documented defaults
otherwise). -/
def paramsPop3 : Params := { defaultParams with population := 3 }

/-- Concrete parameters with `population = 5` (and the documented defaults
otherwise). -/
def paramsPop5 : Params := { defaultParams with population := 5 }

/-- The first agent created by `make_agents` for `paramsPop5` with all
draws zero: creation index 0, id 0, seeded Infected. -/
def sampleBoid : Boid :=
  makeBoid paramsPop5 zeroStream zeroStream 0 0 Status.infected

/-- Concrete invalid construction parameters: negative population, negative
vision and separation radii, and a mortality rate outside `[0,1]`. -/
def badParams : Params where
  population := -1
  width := 100
  height := 100
  speed := 1
  vision := -10
  motality := 2
  infection_rate := 0.3
  separation := -2
  cohere := 0.025
  separate := 0.25
  match_factor := 0.04

lemma makeAgentsAux_length (p : Params) (sr gr : ℕ → ℚ) :
    ∀ (k : ℕ) (l : List (Int × Status)), (makeAgentsAux p sr gr k l).length = l.length := by
  intro k l
  induction l generalizing k with
  | nil => rfl
  | cons hd tl ih =>
    cases hd with
    | mk i st => simp [makeAgentsAux, ih]

lemma makeAgentsAux_map_status (p : Params) (sr gr : ℕ → ℚ) :
    ∀ (k : ℕ) (l : List (Int × Status)),
      (makeAgentsAux p sr gr k l).map Boid.status = l.map Prod.snd := by
  intro k l
  induction l generalizing k with
  | nil => rfl
  | cons hd tl ih =>
    cases hd with
    | mk i st => simp [makeAgentsAux, makeBoid, ih]

lemma makeAgentsAux_map_id (p : Params) (sr gr : ℕ → ℚ) :
    ∀ (k : ℕ) (l : List (Int × Status)),
      (makeAgentsAux p sr gr k l).map Boid.unique_id = l.map Prod.fst := by
  intro k l
  induction l generalizing k with
  | nil => rfl
  | cons hd tl ih =>
    cases hd with
    | mk i st => simp [makeAgentsAux, makeBoid, ih]

lemma mem_makeAgentsAux (p : Params) (sr gr : ℕ → ℚ) :
    ∀ (k : ℕ) (l : List (Int × Status)) (b : Boid), b ∈ makeAgentsAux p sr gr k l →
      ∃ k' i st, (i, st) ∈ l ∧ b = makeBoid p sr gr k' i st := by
  intro k l
  induction l generalizing k with
  | nil => intro b hb; simp [makeAgentsAux] at hb
  | cons hd tl ih =>
    intro b hb
    cases hd with
    | mk i st =>
      rcases (List.mem_cons).1 hb with hb | hb
      · exact ⟨k, i, st, List.mem_cons_self _ _, hb⟩
      · obtain ⟨k', i', st', hmem, he⟩ := ih (k + 1) b hb
        exact ⟨k', i', st', List.mem_cons_of_mem _ hmem, he⟩

lemma pythonRange_length (a b : Int) : (pythonRange a b).length = (b - a).toNat := by
  show ((List.range (b - a).toNat).map (fun k => a + Int.ofNat k)).length = (b - a).toNat
  rw [List.length_map, List.length_range]

lemma makeAgentsAux_map_pos (p : Params) (sr gr gr' : ℕ → ℚ) :
    ∀ (k : ℕ) (l : List (Int × Status)),
      (makeAgentsAux p sr gr k l).map Boid.pos =
        (makeAgentsAux p sr gr' k l).map Boid.pos := by
  intro k l
  induction l generalizing k with
  | nil => rfl
  | cons hd tl ih =>
    cases hd with
    | mk i st => simp [makeAgentsAux, makeBoid, ih]

lemma makeAgentsAux_cons_velocity (p : Params) (sr gr : ℕ → ℚ) (k : ℕ) (i : Int)
    (st : Status) (rest : List (Int × Status)) :
    (makeAgentsAux p sr gr k ((i, st) :: rest)).map Boid.velocity =
      (gr (2 * k) * 2 - 1, gr (2 * k + 1) * 2 - 1) ::
        (makeAgentsAux p sr gr (k + 1) rest).map Boid.velocity := rfl

lemma agentSpecs_paramsPop5 :
    agentSpecs paramsPop5 =
      [((0 : Int), Status.infected), (1, Status.infected), (2, Status.infected),
        (3, Status.infected), (4, Status.infected)] := by decide

lemma countStatus_cons (a : Boid) (t : List Boid) (s : Status) :
    countStatus (a :: t) s = countStatus t s + if a.status = s then 1 else 0 := by
  simp [countStatus, List.countP_cons]

lemma countStatus_sum (agents : List Boid) :
    countStatus agents .susceptible + countStatus agents .infected +
      countStatus agents .recovered + countStatus agents .removed = agents.length := by
  induction agents with
  | nil => rfl
  | cons a t ih =>
    simp only [countStatus_cons, List.length_cons]
    cases h : a.status <;> simp [h] <;> omega

lemma scheduleStep_cons (idx : ℕ) (rest : List ℕ) (O : ℕ → ActivationOracle)
    (agents : List Boid) :
    scheduleStep (idx :: rest) O agents =
      scheduleStep rest O
        (match agents.get? idx with
         | some b => agents.set idx (activateWith (O idx) b)
         | none => agents) := rfl

lemma scheduleStep_length (order : List ℕ) (O : ℕ → ActivationOracle) :
    ∀ agents : List Boid, (scheduleStep order O agents).length = agents.length := by
  induction order with
  | nil => intro agents; rfl
  | cons idx rest ih =>
    intro agents
    rw [scheduleStep_cons, ih]
    cases h : agents.get? idx <;> simp [h]

lemma runModel_inv (p : Params) (sr gr : ℕ → ℚ) (orders : ℕ → List ℕ)
    (Os : ℕ → ℕ → ActivationOracle) (n : ℕ) :
    (runModel p sr gr orders Os n).schedule.length = (makeAgents p sr gr).length ∧
    (runModel p sr gr orders Os n).status_num.susceptible.length = n + 1 ∧
    (runModel p sr gr orders Os n).status_num.infected.length = n + 1 ∧
    (runModel p sr gr orders Os n).status_num.recovered.length = n + 1 ∧
    (runModel p sr gr orders Os n).status_num.removed.length = n + 1 ∧
    sumTallies (runModel p sr gr orders Os n).status_num =
      List.replicate (n + 1) (makeAgents p sr gr).length := by
  induction n with
  | zero =>
    have h := countStatus_sum (makeAgents p sr gr)
    refine ⟨rfl, rfl, rfl, rfl, rfl, ?_⟩
    show [countStatus (makeAgents p sr gr) .susceptible +
            countStatus (makeAgents p sr gr) .infected +
          (countStatus (makeAgents p sr gr) .recovered +
            countStatus (makeAgents p sr gr) .removed)] =
        [(makeAgents p sr gr).length]
    rw [List.cons.injEq]
    exact ⟨by omega, rfl⟩
  | succ n ih =>
    obtain ⟨hsch, hs, hi, hr, hd, hsum⟩ := ih
    have hlen :
        (scheduleStep (orders n) (Os n) (runModel p sr gr orders Os n).schedule).length =
          (makeAgents p sr gr).length := by
      rw [scheduleStep_length]; exact hsch
    have hcount :=
      countStatus_sum (scheduleStep (orders n) (Os n) (runModel p sr gr orders Os n).schedule)
    refine ⟨hlen, ?_, ?_, ?_, ?_, ?_⟩
    · simp only [runModel, modelStep, get_status_num, List.length_append,
        List.length_cons, List.length_nil]
      omega
    · simp only [runModel, modelStep, get_status_num, List.length_append,
        List.length_cons, List.length_nil]
      omega
    · simp only [runModel, modelStep, get_status_num, List.length_append,
        List.length_cons, List.length_nil]
      omega
    · simp only [runModel, modelStep, get_status_num, List.length_append,
        List.length_cons, List.length_nil]
      omega
    · simp only [runModel, modelStep, get_status_num, sumTallies]
      rw [List.zipWith_append _ _ _ _ _ (hs.trans hi.symm),
        List.zipWith_append _ _ _ _ _ (hr.trans hd.symm),
        List.zipWith_append _ _ _ _ _ (by simp [hs, hi, hr, hd])]
      show sumTallies (runModel p sr gr orders Os n).status_num ++ [_] = _
      rw [hsum]
      rw [show List.replicate (n + 1 + 1) (makeAgents p sr gr).length =
            List.replicate (n + 1) (makeAgents p sr gr).length ++
              [(makeAgents p sr gr).length] from List.replicate_succ' _ _]
      rw [List.append_cancel_left_eq, List.cons.injEq]
      refine ⟨?_, rfl⟩
      show countStatus _ .susceptible + countStatus _ .infected +
          (countStatus _ .recovered + countStatus _ .removed) = _
      rw [← hlen]
      omega

/-- C1: for every tick of every run — including the initial tally recorded
at construction — the four counts of the status tally sum to exactly the
number of agents held by the scheduler, and `get_status_num` counts every
agent in exactly one category (for any agent list, the four counts sum to
the list's length). -/
theorem tally_sum_conservation (p : Params) (sr gr : ℕ → ℚ)
    (orders : ℕ → List ℕ) (Os : ℕ → ℕ → ActivationOracle) (n : ℕ) :
    sumTallies (runModel p sr gr orders Os n).status_num =
      List.replicate (n + 1) (runModel p sr gr orders Os n).schedule.length ∧
    (∀ agents : List Boid,
      countStatus agents .susceptible + countStatus agents .infected +
        countStatus agents .recovered + countStatus agents .removed = agents.length) := by
  obtain ⟨hsch, _, _, _, _, hsum⟩ := runModel_inv p sr gr orders Os n
  exact ⟨by rw [hsum, hsch], countStatus_sum⟩

/-- C2, evaluation at the failing input: with `population = 3`,
`make_agents` creates 5 agents (all of them Infected) rather than the 3
promised by its docstring and by the claim. -/
theorem population_three_creates_five_agents :
    paramsPop3.population = 3 ∧
    (makeAgents paramsPop3 zeroStream zeroStream).length = 5 ∧
    (makeAgents paramsPop3 zeroStream zeroStream).map Boid.status =
      List.replicate 5 Status.infected := by
  refine ⟨rfl, ?_, ?_⟩ <;> decide

/-- C3: Recovered and Removed are absorbing under the per-activation
status-transition step: any sequence of further per-tick draws leaves them
unchanged, and a single activation of an agent in either status keeps that
status. -/
theorem recovered_removed_absorbing (draws : List (List Bool × Bool × Bool))
    (o : ActivationOracle) (b : Boid) :
    draws.foldl (fun st d => statusUpdate st d.1 d.2.1 d.2.2) Status.recovered =
      Status.recovered ∧
    draws.foldl (fun st d => statusUpdate st d.1 d.2.1 d.2.2) Status.removed =
      Status.removed ∧
    (activateWith o { b with status := Status.recovered }).status = Status.recovered ∧
    (activateWith o { b with status := Status.removed }).status = Status.removed := by
  refine ⟨?_, ?_, rfl, rfl⟩
  · induction draws with
    | nil => rfl
    | cons d t ih => simpa [statusUpdate] using ih
  · induction draws with
    | nil => rfl
    | cons d t ih => simpa [statusUpdate] using ih

/-- C4, evaluation at the failing input: two runs that agree on the
seedable `self.random` stream but differ in the global numpy stream (all
draws 0 versus all draws 1/2) get identical initial positions but
different initial velocities — the initial velocities of `make_agents` are
drawn from the global numpy generator, not from the seedable generator, so
fixing the seed does not reproduce the run. -/
theorem global_rng_breaks_reproducibility :
    (makeAgents paramsPop5 zeroStream zeroStream).map Boid.pos =
      (makeAgents paramsPop5 zeroStream halfStream).map Boid.pos ∧
    (makeAgents paramsPop5 zeroStream zeroStream).map Boid.velocity ≠
      (makeAgents paramsPop5 zeroStream halfStream).map Boid.velocity := by
  constructor
  · exact makeAgentsAux_map_pos paramsPop5 zeroStream zeroStream halfStream 0
      (agentSpecs paramsPop5)
  · intro h
    simp only [makeAgents, agentSpecs_paramsPop5, makeAgentsAux_cons_velocity] at h
    rw [List.cons.injEq] at h
    have h1 := h.1
    rw [Prod.mk.injEq] at h1
    have h2 := h1.1
    norm_num [zeroStream, halfStream] at h2

/-- C5, counterexample: constructing the model with a negative population,
negative vision and separation radii, and a mortality rate of 2 (outside
`[0,1]`) does not fail — the constructor returns a fully built model, so
construction does not fail fast on invalid parameters. -/
theorem invalid_params_accepted :
    badParams.population = -1 ∧ badParams.vision = -10 ∧
    badParams.separation = -2 ∧ badParams.motality = 2 ∧
    tryInitBoidFlockers badParams zeroStream zeroStream =
      Except.ok (initBoidFlockers badParams zeroStream zeroStream) :=
  ⟨rfl, rfl, rfl, rfl, rfl⟩

/-- C5, amended: the constructor performs no parameter validation at all —
for every parameter set (including negative population, negative radii and
rates outside `[0,1]`) construction succeeds and returns the fully built
model; no error is ever raised at construction time. -/
theorem construction_always_succeeds (p : Params) (sr gr : ℕ → ℚ) :
    tryInitBoidFlockers p sr gr = Except.ok (initBoidFlockers p sr gr) := rfl

/-- C6: every `step()` call performs exactly one scheduler pass and then
appends exactly one tally entry to each of the four history series — the
entries recorded by earlier ticks are preserved unchanged — so after `n`
calls each series holds `n + 1` entries, the first recorded at
construction. -/
theorem step_appends_one_tally (p : Params) (sr gr : ℕ → ℚ)
    (orders : ℕ → List ℕ) (Os : ℕ → ℕ → ActivationOracle) (n : ℕ) :
    (runModel p sr gr orders Os (n + 1)).schedule =
      scheduleStep (orders n) (Os n) (runModel p sr gr orders Os n).schedule ∧
    (runModel p sr gr orders Os (n + 1)).status_num.susceptible =
      (runModel p sr gr orders Os n).status_num.susceptible ++
        [countStatus (runModel p sr gr orders Os (n + 1)).schedule .susceptible] ∧
    (runModel p sr gr orders Os (n + 1)).status_num.infected =
      (runModel p sr gr orders Os n).status_num.infected ++
        [countStatus (runModel p sr gr orders Os (n + 1)).schedule .infected] ∧
    (runModel p sr gr orders Os (n + 1)).status_num.recovered =
      (runModel p sr gr orders Os n).status_num.recovered ++
        [countStatus (runModel p sr gr orders Os (n + 1)).schedule .recovered] ∧
    (runModel p sr gr orders Os (n + 1)).status_num.removed =
      (runModel p sr gr orders Os n).status_num.removed ++
        [countStatus (runModel p sr gr orders Os (n + 1)).schedule .removed] ∧
    (runModel p sr gr orders Os n).status_num.susceptible.length = n + 1 ∧
    (runModel p sr gr orders Os n).status_num.infected.length = n + 1 ∧
    (runModel p sr gr orders Os n).status_num.recovered.length = n + 1 ∧
    (runModel p sr gr orders Os n).status_num.removed.length = n + 1 := by
  obtain ⟨_, hs, hi, hr, hd, _⟩ := runModel_inv p sr gr orders Os n
  exact ⟨rfl, rfl, rfl, rfl, rfl, hs, hi, hr, hd⟩

/-- C7: every agent created by `make_agents` starts at a position whose x
lies in `[0, width)` and whose y lies in `[0, height)`, with both initial
velocity components in `[-1, 1]` — given positive space dimensions and
generators that draw from `[0, 1)` as `random()` does. -/
theorem initial_pos_velocity_bounds (p : Params) (sr gr : ℕ → ℚ)
    (hw : 0 < p.width) (hh : 0 < p.height)
    (hsr : ∀ k, 0 ≤ sr k ∧ sr k < 1) (hgr : ∀ k, 0 ≤ gr k ∧ gr k < 1)
    (b : Boid) (hb : b ∈ makeAgents p sr gr) :
    0 ≤ b.pos.1 ∧ b.pos.1 < p.width ∧ 0 ≤ b.pos.2 ∧ b.pos.2 < p.height ∧
    -1 ≤ b.velocity.1 ∧ b.velocity.1 ≤ 1 ∧
    -1 ≤ b.velocity.2 ∧ b.velocity.2 ≤ 1 := by
  obtain ⟨k, i, st, -, rfl⟩ := mem_makeAgentsAux p sr gr 0 (agentSpecs p) b hb
  refine ⟨?_, ?_, ?_, ?_, ?_, ?_, ?_, ?_⟩
  · exact mul_nonneg (hsr (2 * k)).1 hw.le
  · exact mul_lt_of_lt_one_left hw (hsr (2 * k)).2
  · exact mul_nonneg (hsr (2 * k + 1)).1 hh.le
  · exact mul_lt_of_lt_one_left hh (hsr (2 * k + 1)).2
  · have := (hgr (2 * k)).1
    show -1 ≤ gr (2 * k) * 2 - 1
    linarith
  · have := (hgr (2 * k)).2
    show gr (2 * k) * 2 - 1 ≤ 1
    linarith
  · have := (hgr (2 * k + 1)).1
    show -1 ≤ gr (2 * k + 1) * 2 - 1
    linarith
  · have := (hgr (2 * k + 1)).2
    show gr (2 * k + 1) * 2 - 1 ≤ 1
    linarith

/-- C7, witness: the first agent of a concrete population-5 construction
with all draws 0 satisfies the position and velocity bounds. -/
theorem initial_pos_velocity_bounds_witness :
    0 ≤ sampleBoid.pos.1 ∧ sampleBoid.pos.1 < paramsPop5.width ∧
    0 ≤ sampleBoid.pos.2 ∧ sampleBoid.pos.2 < paramsPop5.height ∧
    -1 ≤ sampleBoid.velocity.1 ∧ sampleBoid.velocity.1 ≤ 1 ∧
    -1 ≤ sampleBoid.velocity.2 ∧ sampleBoid.velocity.2 ≤ 1 :=
  initial_pos_velocity_bounds paramsPop5 zeroStream zeroStream
    (by norm_num [paramsPop5, defaultParams])
    (by norm_num [paramsPop5, defaultParams])
    (fun k => ⟨le_refl 0, by norm_num [zeroStream]⟩)
    (fun k => ⟨le_refl 0, by norm_num [zeroStream]⟩)
    sampleBoid
    (by
      show sampleBoid ∈ makeAgents paramsPop5 zeroStream zeroStream
      simp only [makeAgents, agentSpecs_paramsPop5, makeAgentsAux]
      exact List.mem_cons_self _ _)

/-- C8: the constructor's default argument values are exactly the
documented ones: population 100, width 100, height 100, speed 1,
vision 10, separation 2, mortality (`motality`) 0.1, infection_rate 0.3,
cohere 0.025, separate 0.25, match 0.04. -/
theorem default_parameter_values :
    defaultParams.population = 100 ∧ defaultParams.width = 100 ∧
    defaultParams.height = 100 ∧ defaultParams.speed = 1 ∧
    defaultParams.vision = 10 ∧ defaultParams.separation = 2 ∧
    defaultParams.motality = 1 / 10 ∧ defaultParams.infection_rate = 3 / 10 ∧
    defaultParams.cohere = 25 / 1000 ∧ defaultParams.separate = 1 / 4 ∧
    defaultParams.match_factor = 4 / 100 := by
  refine ⟨rfl, rfl, rfl, rfl, rfl, rfl, ?_, ?_, ?_, ?_, ?_⟩ <;>
    norm_num [defaultParams]

/-- C9: for `0 ≤ population < 5`, `make_agents` creates exactly 5 agents,
all of them Infected (so no Susceptible agents), with unique ids
`population-5, …, population-1` — the lower end of which is negative. -/
theorem small_population_five_infected (p : Params) (sr gr : ℕ → ℚ)
    (h0 : 0 ≤ p.population) (h5 : p.population < 5) :
    (makeAgents p sr gr).length = 5 ∧
    (makeAgents p sr gr).map Boid.status = List.replicate 5 Status.infected ∧
    (makeAgents p sr gr).map Boid.unique_id =
      pythonRange (p.population - 5) p.population ∧
    p.population - 5 < 0 := by
  have hneg : p.population - 5 < 0 := by omega
  have hemp : susceptibleIds p = [] := by
    have hl : (susceptibleIds p).length = 0 := by
      show (pythonRange 0 (p.population - 5)).length = 0
      rw [pythonRange_length]
      omega
    exact List.eq_nil_of_length_eq_zero hl
  have hlen5 : (infectedIds p).length = 5 := by
    show (pythonRange (p.population - 5) p.population).length = 5
    rw [pythonRange_length]
    omega
  have hspecs : agentSpecs p = (infectedIds p).map (fun i => (i, Status.infected)) := by
    rw [agentSpecs, hemp]
    rfl
  refine ⟨?_, ?_, ?_, hneg⟩
  · rw [makeAgents, makeAgentsAux_length, hspecs, List.length_map, hlen5]
  · rw [makeAgents, makeAgentsAux_map_status, hspecs, List.map_map]
    rw [show (Prod.snd ∘ fun i => ((i : Int), Status.infected)) =
          fun _ => Status.infected from rfl]
    rw [← hlen5]
    exact List.map_const' _ _
  · rw [makeAgents, makeAgentsAux_map_id, hspecs, List.map_map]
    rw [show (Prod.fst ∘ fun i => ((i : Int), Status.infected)) = id from rfl]
    rw [List.map_id]
    rfl

/-- C9, witness: with `population = 3` the constructed agent list has 5
agents, all Infected, with ids `-2, -1, 0, 1, 2`. -/
theorem small_population_five_infected_witness :
    (0 : Int) ≤ paramsPop3.population ∧ paramsPop3.population < 5 ∧
    (makeAgents paramsPop3 zeroStream zeroStream).length = 5 ∧
    (makeAgents paramsPop3 zeroStream zeroStream).map Boid.status =
      List.replicate 5 Status.infected ∧
    (makeAgents paramsPop3 zeroStream zeroStream).map Boid.unique_id =
      pythonRange (paramsPop3.population - 5) paramsPop3.population ∧
    paramsPop3.population - 5 < 0 := by
  have h := small_population_five_infected paramsPop3 zeroStream zeroStream
    (by decide) (by decide)
  exact ⟨by decide, by decide, h.1, h.2.1, h.2.2.1, h.2.2.2⟩

/-- C10: the four status-history series always have equal length — at
construction and after any number of steps — and every `get_status_num`
call appends exactly one element to each of the four lists. -/
theorem status_series_equal_length (p : Params) (sr gr : ℕ → ℚ)
    (orders : ℕ → List ℕ) (Os : ℕ → ℕ → ActivationOracle) :
    (∀ n : ℕ,
      (runModel p sr gr orders Os n).status_num.susceptible.length =
        (runModel p sr gr orders Os n).status_num.infected.length ∧
      (runModel p sr gr orders Os n).status_num.infected.length =
        (runModel p sr gr orders Os n).status_num.recovered.length ∧
      (runModel p sr gr orders Os n).status_num.recovered.length =
        (runModel p sr gr orders Os n).status_num.removed.length) ∧
    (∀ m : BoidFlockers,
      (get_status_num m).status_num.susceptible.length =
        m.status_num.susceptible.length + 1 ∧
      (get_status_num m).status_num.infected.length =
        m.status_num.infected.length + 1 ∧
      (get_status_num m).status_num.recovered.length =
        m.status_num.recovered.length + 1 ∧
      (get_status_num m).status_num.removed.length =
        m.status_num.removed.length + 1) := by
  constructor
  · intro n
    obtain ⟨-, hs, hi, hr, hd, -⟩ := runModel_inv p sr gr orders Os n
    exact ⟨hs.trans hi.symm, hi.trans hr.symm, hr.trans hd.symm⟩
  · intro m
    refine ⟨?_, ?_, ?_, ?_⟩ <;>
      simp [get_status_num]

end InfectionVis
